import Mathlib

/-!
Shallow embedding of the mesh-viewer rendering core (`src/render/`): the
per-mesh data (`view_data.rs`), the shared camera engine (`view_core.rs`) and
the scene registry with its trackball math (`viewer.rs`).  Scalars that the
source stores as `f32`/`f64` are modelled as real numbers; GPU buffer writes
are modelled as recorded events; the wgpu handles carry no data relevant to
the verified claims and are tracked only by presence flags.
-/

set_option maxHeartbeats 4000000
set_option maxRecDepth 8000

noncomputable section

/-- Components of a 3-vector (`cgmath::Vector3<f32>`), modelled over ℝ. -/
structure V3 where
  x : ℝ
  y : ℝ
  z : ℝ

/-- Components of a 4-vector (`[f32; 4]`), modelled over ℝ. -/
structure Vec4 where
  x : ℝ
  y : ℝ
  z : ℝ
  w : ℝ

def V3.sub (a b : V3) : V3 := ⟨a.x - b.x, a.y - b.y, a.z - b.z⟩

def V3.cross (a b : V3) : V3 :=
  ⟨a.y * b.z - a.z * b.y, a.z * b.x - a.x * b.z, a.x * b.y - a.y * b.x⟩

/-- Euclidean normalization of a 3-vector (`cgmath::InnerSpace::normalize`). -/
def V3.normalize (v : V3) : V3 :=
  let len := Real.sqrt (v.x ^ 2 + v.y ^ 2 + v.z ^ 2)
  ⟨v.x / len, v.y / len, v.z / len⟩

def V3.neg (v : V3) : V3 := ⟨-v.x, -v.y, -v.z⟩

/-- Value of `f32::MAX`, the sentinel used by `BBox::default` in `render/mod.rs`
(`f32::MIN` is its negation). -/
def FLOAT_MAX : ℝ := 340282346638528859811704183484516925440

/-- Axis-aligned bounding box (`BBox` in `render/mod.rs`). -/
structure BBox where
  min : V3
  max : V3

/-- Default `BBox`: min at `f32::MAX`, max at `f32::MIN`, so that merging any
point shrinks it onto that point (`impl Default for BBox`). -/
def BBox.default : BBox :=
  ⟨⟨FLOAT_MAX, FLOAT_MAX, FLOAT_MAX⟩, ⟨-FLOAT_MAX, -FLOAT_MAX, -FLOAT_MAX⟩⟩

/-- Componentwise extension of the box by one point (`BBox::merge`). -/
def BBox.merge (b : BBox) (p : V3) : BBox :=
  ⟨⟨Min.min b.min.x p.x, Min.min b.min.y p.y, Min.min b.min.z p.z⟩,
   ⟨Max.max b.max.x p.x, Max.max b.max.y p.y, Max.max b.max.z p.z⟩⟩

/-- Union of two boxes by merging both corners (`BBox::merge_box`). -/
def BBox.merge_box (b o : BBox) : BBox := (b.merge o.min).merge o.max

/-- Modelled from the spec: `BBox::max_len` is called by `ViewCore::render`
(`view_core.rs:327`) but its definition is missing from the sources
(`render/mod.rs` defines only `merge` and `merge_box`).  The spec's unit-cube
example — base-zoom ≈ 1/1.732 = 1/√3 for the box [-0.5, 0.5]³ — pins it down
as the euclidean length of the box diagonal `max - min`. -/
def BBox.max_len (b : BBox) : ℝ :=
  Real.sqrt ((b.max.x - b.min.x) ^ 2 + (b.max.y - b.min.y) ^ 2 + (b.max.z - b.min.z) ^ 2)

/-- Spec-side definition used only to compare against the code: the box's
maximum extent along any single coordinate axis, taken verbatim from the
spec sentence "1 / (box's maximum extent along any axis)". -/
def specMaxExtentAnyAxis (b : BBox) : ℝ :=
  max (b.max.x - b.min.x) (max (b.max.y - b.min.y) (b.max.z - b.min.z))

/-- Per-vertex data (`Vertex` in `view_data.rs`). -/
structure Vertex where
  point : V3
  normal : V3
  barycentric : V3

/-- Fold of componentwise min/max over the vertex positions starting from the
`f32::MAX`/`f32::MIN` sentinels (`box_from_points`, `view_data.rs:282-303`);
the source's six-scalar fold is exactly a `BBox.merge` of each point. -/
def box_from_points (vertices : List Vertex) : BBox :=
  vertices.foldl (fun b v => b.merge v.point) BBox.default

/-- Phong material (`Material` in `view_data.rs`); the `_pad` field carries no
information and is omitted. -/
structure Material where
  ka : Vec4
  kd : Vec4
  ks : Vec4
  edge_color : Vec4
  edge_width : ℝ

/-- Constructor `Material::new`: ambient = 0.1·color, diffuse = color,
specular = grey + 0.1·(color − grey) with grey = 0.3, all with alpha 1;
black edges of width 0. -/
def Material.new (color : V3) : Material :=
  { ka := ⟨0.1 * color.x, 0.1 * color.y, 0.1 * color.z, 1⟩
    kd := ⟨color.x, color.y, color.z, 1⟩
    ks := ⟨0.3 + 0.1 * (color.x - 0.3), 0.3 + 0.1 * (color.y - 0.3),
           0.3 + 0.1 * (color.z - 0.3), 1⟩
    edge_color := ⟨0, 0, 0, 1⟩
    edge_width := 0 }

/-- Dirty bitset (`DirtyFlags` in `view_data.rs`), one Bool per flag bit. -/
structure DirtyFlags where
  vertex : Bool
  edge : Bool
  face : Bool
  material : Bool

/-- Value `DirtyFlags::DIRTY_ALL`. -/
def DirtyFlags.dirtyAll : DirtyFlags := ⟨true, true, true, true⟩

/-- Per-mesh entry (`ViewData` in `view_data.rs`); the lazily created
`Option<MeshPipeline>` GPU sub-object is tracked by presence only. -/
structure ViewData where
  vertices : List Vertex
  material : Material
  dirty : DirtyFlags
  bbox : BBox
  hasPipeline : Bool
  visible : Bool

/-- Constructor `ViewData::new`: everything dirty, default box, no GPU
resources yet, visible. -/
def ViewData.new (vertices : List Vertex) (material : Material) : ViewData :=
  { vertices := vertices, material := material, dirty := DirtyFlags.dirtyAll,
    bbox := BBox.default, hasPipeline := false, visible := true }

/-- Face culling mode of the two shared pipeline variants. -/
inductive CullMode
  | back
  | front
deriving DecidableEq

/-- Commands a mesh records on the render pass (`wgpu::RenderPass` calls). -/
inductive RenderCommand
  | setBindGroup (slot : Nat)
  | setVertexBuffer
  | setPipeline (cull : CullMode)
  | draw (count : Nat)
deriving DecidableEq

/-- Draw submission of one mesh (`ViewData::render`, `view_data.rs:260-279`):
bind material group and vertex buffer; if the diffuse alpha is below 0.999
draw with the front-cull pipeline then with the back-cull pipeline, otherwise
draw once with the back-cull pipeline. -/
def ViewData.render (d : ViewData) : List RenderCommand :=
  [RenderCommand.setBindGroup 1, RenderCommand.setVertexBuffer] ++
  (if d.material.kd.w < 0.999 then
    [RenderCommand.setPipeline CullMode.front, RenderCommand.draw d.vertices.length,
     RenderCommand.setPipeline CullMode.back, RenderCommand.draw d.vertices.length]
  else
    [RenderCommand.setPipeline CullMode.back, RenderCommand.draw d.vertices.length])

/-- Pipeline in effect at each `draw` command of a command stream, given the
pipeline currently bound when the stream starts. -/
def drawsWithPipeline : Option CullMode → List RenderCommand → List (Option CullMode)
  | _, [] => []
  | _, RenderCommand.setPipeline p :: rest => drawsWithPipeline (some p) rest
  | cur, RenderCommand.draw _ :: rest => cur :: drawsWithPipeline cur rest
  | cur, _ :: rest => drawsWithPipeline cur rest

/-- Shared camera engine state (`ViewCore` in `view_core.rs`).  The lazily
created shared GPU objects (`view_buffer`, `material_bind_group_layout`, the
two pipelines) carry no data the claims depend on and are omitted; the scalar
camera state is kept in full. -/
structure ViewCore where
  light_position : V3
  camera_base_zoom : ℝ
  camera_zoom : ℝ
  camera_base_translation : V3
  camera_near : ℝ
  camera_far : ℝ
  camera_fov : ℝ
  camera_eye : V3
  camera_center : V3
  camera_up : V3
  trackball_angle : Quaternion ℝ

/-- Value of `impl Default for ViewCore` (`view_core.rs:47-72`); the field
`camera_fov` holds 45 degrees in radians. -/
def ViewCore.new : ViewCore :=
  { light_position := ⟨0, 0.3, 0⟩
    camera_base_zoom := 1
    camera_zoom := 1
    camera_base_translation := ⟨0, 0, 0⟩
    camera_near := 1
    camera_far := 100
    camera_fov := Real.pi * 45 / 180
    camera_eye := ⟨0, 0, 5⟩
    camera_center := ⟨0, 0, 0⟩
    camera_up := ⟨0, 1, 0⟩
    trackball_angle := ⟨1, 0, 0, 0⟩ }

/-- Per-entry synchronization performed on each visible entry by
`ViewCore::render` (`view_core.rs:301-316`): create GPU resources if absent;
if DIRTY_VERTEX, re-upload the vertex buffer — recomputing the entry's box
from its vertices (`ViewData::update_vertex_buffer`) — and clear the flag;
if DIRTY_MATERIAL, re-upload the material uniform and clear the flag. -/
def syncEntry (d : ViewData) : ViewData :=
  let d1 := if d.hasPipeline then d else { d with hasPipeline := true }
  let d2 :=
    if d1.dirty.vertex then
      { d1 with bbox := box_from_points d1.vertices,
                dirty := { d1.dirty with vertex := false } }
    else d1
  if d2.dirty.material then { d2 with dirty := { d2.dirty with material := false } } else d2

/-- Observable result of one `ViewCore::render` call: the updated entry map,
the updated camera state, the ids whose vertex/material buffers were written
this frame, whether the shared matrices were re-uploaded, and the render-pass
command stream. -/
structure RenderOutput where
  entries : List (Nat × ViewData)
  core : ViewCore
  uploaded_vertex_ids : List Nat
  uploaded_material_ids : List Nat
  matrix_updated : Bool
  commands : List RenderCommand

/-- Union bounding box of every entry of the map, visible or not, computed by
folding `merge_box` from the default box (`view_core.rs:321-324`). -/
def sceneBox (entries : List (Nat × ViewData)) : BBox :=
  entries.foldl (fun b p => b.merge_box p.2.bbox) BBox.default

/-- One frame of the camera engine (`ViewCore::render`, `view_core.rs:295-348`),
with the entry map embedded as an association list:
every visible entry is synchronized (invisible ones are skipped by the
`continue`); `has_dirty_data` records whether some visible entry had
DIRTY_VERTEX; if a box refresh was requested or some vertex data changed and
the map is non-empty, the union box of all entries is recomputed and
base-translation/base-zoom rederived from it; matrices re-upload when dirty
data was seen or a matrix update was requested; finally the camera group is
bound and every visible entry submits its draws. -/
def ViewCore.render (core : ViewCore) (data : List (Nat × ViewData))
    (update_box update_matrix : Bool) : RenderOutput :=
  let entries := data.map fun p => if p.2.visible then (p.1, syncEntry p.2) else p
  let has_dirty_data := data.any fun p => p.2.visible && p.2.dirty.vertex
  let uploadedV := (data.filter fun p => p.2.visible && p.2.dirty.vertex).map Prod.fst
  let uploadedM := (data.filter fun p => p.2.visible && p.2.dirty.material).map Prod.fst
  let core2 :=
    if (update_box || has_dirty_data) && !entries.isEmpty then
      let bbox := sceneBox entries
      { core with
        camera_base_translation :=
          V3.neg ⟨(bbox.min.x + bbox.max.x) / 2, (bbox.min.y + bbox.max.y) / 2,
                  (bbox.min.z + bbox.max.z) / 2⟩
        camera_base_zoom := 1 / bbox.max_len }
    else core
  { entries := entries
    core := core2
    uploaded_vertex_ids := uploadedV
    uploaded_material_ids := uploadedM
    matrix_updated := has_dirty_data || update_matrix
    commands := RenderCommand.setBindGroup 0 ::
      ((entries.filter fun p => p.2.visible).map fun p => p.2.render).flatten }

/-- Mouse-press state (`MousePressed` in `viewer.rs`). -/
inductive MousePressed
  | left (anchor : Option ((ℝ × ℝ) × Quaternion ℝ))
  | right (anchor : Option (ℝ × ℝ))
  | idle

/-- Scene registry (`Viewer` in `viewer.rs`); the id-keyed `HashMap` is
embedded as an association list and the shared `Rc<RefCell<Option<Renderer>>>`
handle is supplied externally at each render call. -/
structure Viewer where
  data : List (Nat × ViewData)
  next_data_id : Nat
  view_core : ViewCore
  current_pos : ℝ × ℝ
  pressed_state : MousePressed
  data_dirty : Bool

/-- Value of `Viewer::new`. -/
def Viewer.new : Viewer :=
  { data := [], next_data_id := 0, view_core := ViewCore.new,
    current_pos := (0, 0), pressed_state := MousePressed.idle, data_dirty := false }

/-- Point lookup `point(idx)` inside `append_mesh` (`viewer.rs:49-52`): reads
three consecutive floats at `idx * 3`.  An out-of-range index panics in the
source (a caller precondition per the spec) and is totalized with 0 here. -/
def vpoint (points : List ℝ) (idx : Nat) : V3 :=
  ⟨points.getD (idx * 3) 0, points.getD (idx * 3 + 1) 0, points.getD (idx * 3 + 2) 0⟩

/-- Flat-shaded vertices of one triangle (`viewer.rs:56-79`): one normal from
the normalized cross product of the two edge vectors, shared by three
vertices carrying the three unit barycentric tags. -/
def tri_vertices (points : List ℝ) (a b c : Nat) : List Vertex :=
  let v0 := vpoint points a
  let v1 := vpoint points b
  let v2 := vpoint points c
  let normal := ((V3.sub v1 v0).cross (V3.sub v2 v0)).normalize
  [⟨v0, normal, ⟨1, 0, 0⟩⟩, ⟨v1, normal, ⟨0, 1, 0⟩⟩, ⟨v2, normal, ⟨0, 0, 1⟩⟩]

/-- Triangle-chunked vertex emission (`triangles.chunks(3)` followed by
flattening, `viewer.rs:53-81`).  A trailing chunk of fewer than three indices
panics in the source (caller precondition) and emits nothing here. -/
def mesh_vertices (points : List ℝ) : List Nat → List Vertex
  | a :: b :: c :: rest => tri_vertices points a b c ++ mesh_vertices points rest
  | _ => []

/-- Operation `Viewer::append_mesh` (`viewer.rs:43-99`).  The `color`
argument stands for the caller-supplied color, or for the value sampled
uniformly per channel when the caller passes none (the entropy source is
external to the embedding; the assigned id does not depend on it).  Returns
the mutated viewer and the id handed back to the caller. -/
def Viewer.append_mesh (v : Viewer) (points : List ℝ) (triangles : List Nat)
    (color : V3) : Viewer × Nat :=
  let data := ViewData.new (mesh_vertices points triangles) (Material.new color)
  let id := v.next_data_id
  ({ v with data := (id, data) :: v.data, next_data_id := v.next_data_id + 1 }, id)

/-- Operation `Viewer::remove_data` (`viewer.rs:195-198`): drop the entry and
mark the scene for a box refresh on the next render. -/
def Viewer.remove_data (v : Viewer) (id : Nat) : Viewer :=
  { v with data := v.data.filter fun p => p.1 != id, data_dirty := true }

/-- In-place mutation of the entry with a given key, as `HashMap::get_mut`
followed by a field update; absent keys leave the map untouched. -/
def update_entry (data : List (Nat × ViewData)) (id : Nat)
    (f : ViewData → ViewData) : List (Nat × ViewData) :=
  data.map fun p => if p.1 = id then (p.1, f p.2) else p

/-- Operation `Viewer::set_visible` (`viewer.rs:200-204`): sets the flag only,
no dirty bit. -/
def Viewer.set_visible (v : Viewer) (id : Nat) (visible : Bool) : Viewer :=
  { v with data := update_entry v.data id fun d => { d with visible := visible } }

/-- Operation `Viewer::set_edge_width` (`viewer.rs:206-211`). -/
def Viewer.set_edge_width (v : Viewer) (id : Nat) (width : ℝ) : Viewer :=
  { v with data := update_entry v.data id fun d =>
      { d with material := { d.material with edge_width := width },
               dirty := { d.dirty with material := true } } }

/-- Operation `Viewer::set_edge_color` (`viewer.rs:213-218`). -/
def Viewer.set_edge_color (v : Viewer) (id : Nat) (color : Vec4) : Viewer :=
  { v with data := update_entry v.data id fun d =>
      { d with material := { d.material with edge_color := color },
               dirty := { d.dirty with material := true } } }

/-- Operation `Viewer::mouse_scroll` (`viewer.rs:187-193`): for a nonzero
delta, scale the zoom by `1 + sign(delta) * 0.05` and clamp from below at
0.1. -/
def Viewer.mouse_scroll (v : Viewer) (delta_y : ℝ) : Viewer :=
  if delta_y ≠ 0 then
    let mult : ℝ := 1 + (if delta_y > 0 then 1 else -1) * 0.05
    { v with view_core :=
        { v.view_core with
          camera_zoom := Max.max 0.1 (v.view_core.camera_zoom * mult) } }
  else v

/-- Operation `Viewer::render` (`viewer.rs:101-148`).  The externally created
graphics context is passed as `Option Bool`: `none` models a context that is
not yet ready (the source logs and returns `Ok`), `some false` a ready
context whose frame acquisition fails (the `?` propagates the error), and
`some true` a successful frame, in which case the pass is recorded, the
camera engine renders with `update_box = data_dirty` and a forced matrix
update, and `data_dirty` is cleared. -/
def Viewer.render (ctx : Option Bool) (v : Viewer) :
    Viewer × Except Unit Unit × List RenderCommand :=
  match ctx with
  | Option.none => (v, Except.ok (), [])
  | some false => (v, Except.error (), [])
  | some true =>
      let out := v.view_core.render v.data v.data_dirty true
      ({ v with data := out.entries, view_core := out.core, data_dirty := false },
       Except.ok (), out.commands)

/-- Quaternion from axis and angle (`cgmath::Quaternion::from_axis_angle`):
scalar part `cos(angle/2)`, vector part `sin(angle/2) · axis`. -/
def from_axis_angle (axis : V3) (angle : ℝ) : Quaternion ℝ :=
  ⟨Real.cos (angle / 2), Real.sin (angle / 2) * axis.x,
   Real.sin (angle / 2) * axis.y, Real.sin (angle / 2) * axis.z⟩

/-- World-right axis constant `AXIS_X` of `two_axis_valuator_fixed_up`. -/
def AXIS_X : V3 := ⟨1, 0, 0⟩

/-- World-up axis constant `AXIS_Y` of `two_axis_valuator_fixed_up`. -/
def AXIS_Y : V3 := ⟨0, 1, 0⟩

/-- Trackball math (`two_axis_valuator_fixed_up`, `viewer.rs:221-242`): yaw
about the world-up axis from the horizontal drag fraction, pitch about the
world-right axis from the vertical drag fraction, composed onto the anchored
quaternion and renormalized by dividing componentwise by the magnitude. -/
def two_axis_valuator_fixed_up (w h : ℝ) (speed : ℝ) (press_quat : Quaternion ℝ)
    (press_pos pos : ℝ × ℝ) : Quaternion ℝ :=
  let quat := from_axis_angle AXIS_Y ((pos.1 - press_pos.1) / w * speed) *
              from_axis_angle AXIS_X ((pos.2 - press_pos.2) / h * speed) * press_quat
  ‖quat‖⁻¹ • quat

/-- Quaternion normalization as the spec words it (divide by the norm). -/
def normalizeQ (q : Quaternion ℝ) : Quaternion ℝ := ‖q‖⁻¹ • q

/-- Spec-side definition of the trackball result, following the spec sentence:
yaw rotation about the world-up axis by `(Δx / width) · speed`, pitch rotation
about the world-right axis by `(Δy / height) · speed`, result
`normalize(yaw · pitch · anchorOrientation)`. -/
def spec_trackball (w h speed : ℝ) (q : Quaternion ℝ) (anchor pos : ℝ × ℝ) :
    Quaternion ℝ :=
  let yaw := from_axis_angle ⟨0, 1, 0⟩ ((pos.1 - anchor.1) / w * speed)
  let pitch := from_axis_angle ⟨1, 0, 0⟩ ((pos.2 - anchor.2) / h * speed)
  normalizeQ (yaw * pitch * q)

/-- Scene-registry operations relevant to id assignment (claim C4). -/
inductive SceneOp
  | append (points : List ℝ) (triangles : List Nat) (color : V3)
  | remove (id : Nat)

/-- Run a sequence of scene operations, collecting the ids returned by the
`append` calls in call order. -/
def run_ops (v : Viewer) : List SceneOp → Viewer × List Nat
  | [] => (v, [])
  | SceneOp.append p t c :: rest =>
      let r := v.append_mesh p t c
      let rec2 := run_ops r.1 rest
      (rec2.1, r.2 :: rec2.2)
  | SceneOp.remove id :: rest => run_ops (v.remove_data id) rest

/-- Concrete opaque mesh entry used by witnesses; `Material::new` gives its
diffuse color alpha 1. -/
def sampleData : ViewData := ViewData.new [] (Material.new ⟨0.5, 0.5, 0.5⟩)

/-- Concrete entry that is hidden while its vertex data is dirty, as after
`append_mesh` followed by `set_visible(id, false)` before the first render. -/
def hiddenDirty : ViewData :=
  { ViewData.new [] (Material.new ⟨1, 1, 1⟩) with visible := false }

/-- Concrete fully synchronized visible entry whose stored box is the unit
cube box. -/
def unitBoxData : ViewData :=
  { vertices := [], material := Material.new ⟨1, 1, 1⟩,
    dirty := ⟨false, false, false, false⟩,
    bbox := ⟨⟨-0.5, -0.5, -0.5⟩, ⟨0.5, 0.5, 0.5⟩⟩,
    hasPipeline := true, visible := true }

/-- Corner coordinates of the unit cube, eight corners at ±0.5 as flat
`x y z` triples. -/
def cube_points : List ℝ :=
  [-0.5, -0.5, -0.5,  0.5, -0.5, -0.5,  0.5, 0.5, -0.5,  -0.5, 0.5, -0.5,
   -0.5, -0.5, 0.5,   0.5, -0.5, 0.5,   0.5, 0.5, 0.5,   -0.5, 0.5, 0.5]

/-- Twelve triangles (two per face) triangulating the unit cube, as flat
index triples into `cube_points`. -/
def cube_triangles : List Nat :=
  [0, 2, 1, 0, 3, 2,
   4, 5, 6, 4, 6, 7,
   0, 1, 5, 0, 5, 4,
   2, 3, 7, 2, 7, 6,
   1, 2, 6, 1, 6, 5,
   0, 4, 7, 0, 7, 3]

/-- Fresh mesh entry for the unit cube, exactly as `append_mesh` builds it. -/
def cube_data : ViewData :=
  ViewData.new (mesh_vertices cube_points cube_triangles)
    (Material.new ⟨0.5, 0.5, 0.5⟩)

/-- Claim C1: during a render, a mesh entry whose material's diffuse alpha is
below 0.999 issues exactly two draw calls, the first on the front-face-culled
pipeline and the second on the back-face-culled pipeline, while an entry with
alpha at least 0.999 issues exactly one draw call, on the back-face-culled
pipeline. -/
theorem c1_transparency_draw_calls (d : ViewData) :
    (d.material.kd.w < 0.999 →
      drawsWithPipeline Option.none d.render =
        [some CullMode.front, some CullMode.back]) ∧
    (0.999 ≤ d.material.kd.w →
      drawsWithPipeline Option.none d.render = [some CullMode.back]) := by
  constructor
  · intro h
    unfold ViewData.render
    rw [if_pos h]
    rfl
  · intro h
    unfold ViewData.render
    rw [if_neg (not_lt.mpr h)]
    rfl

/-- Witness for C1 at a concrete opaque mesh entry. -/
theorem c1_transparency_draw_calls_w :
    (0.999 : ℝ) ≤ sampleData.material.kd.w ∧
    drawsWithPipeline Option.none sampleData.render = [some CullMode.back] :=
  ⟨by norm_num [sampleData, ViewData.new, Material.new],
   (c1_transparency_draw_calls sampleData).2
     (by norm_num [sampleData, ViewData.new, Material.new])⟩

/-- Counterexample to claim C3 as stated: scrolling down from zoom 1, the
code multiplies the zoom by 0.95 (that is, by 1 − 0.05), which differs from
dividing it by 1.05, so the new zoom is not `max 0.1 (1 / 1.05)`. -/
theorem c3_scroll_counterexample :
    ¬ ((Viewer.new.mouse_scroll (-1)).view_core.camera_zoom =
        Max.max 0.1 (Viewer.new.view_core.camera_zoom / 1.05)) := by
  norm_num [Viewer.mouse_scroll, Viewer.new, ViewCore.new, max_def]

/-- Claim C3 amended: a positive scroll delta multiplies the zoom by 1.05 and
a negative one multiplies it by 0.95 (not by 1/1.05), the result being
clamped from below at 0.1; a zero delta leaves the whole viewer unchanged. -/
theorem c3_scroll_amended (v : Viewer) (dy : ℝ) :
    (0 < dy → (v.mouse_scroll dy).view_core.camera_zoom =
        Max.max 0.1 (v.view_core.camera_zoom * 1.05)) ∧
    (dy < 0 → (v.mouse_scroll dy).view_core.camera_zoom =
        Max.max 0.1 (v.view_core.camera_zoom * 0.95)) ∧
    (dy = 0 → v.mouse_scroll dy = v) := by
  refine ⟨fun h => ?_, fun h => ?_, fun h => ?_⟩
  · have hne : dy ≠ 0 := ne_of_gt h
    simp only [Viewer.mouse_scroll, hne, h, if_true, ite_true, ne_eq,
      not_false_eq_true, gt_iff_lt]
    norm_num
  · have hne : dy ≠ 0 := ne_of_lt h
    have hng : ¬ 0 < dy := lt_asymm h
    simp only [Viewer.mouse_scroll, hne, hng, ne_eq, not_false_eq_true,
      ite_true, if_false, ite_false, gt_iff_lt]
    norm_num
  · simp [Viewer.mouse_scroll, h]

/-- Witness for the amended C3 at zoom 1 and scroll delta −1. -/
theorem c3_scroll_amended_w :
    (-1 : ℝ) < 0 ∧
    (Viewer.new.mouse_scroll (-1)).view_core.camera_zoom =
      Max.max 0.1 (Viewer.new.view_core.camera_zoom * 0.95) :=
  ⟨by norm_num, (c3_scroll_amended Viewer.new (-1)).2.1 (by norm_num)⟩

/-- Lower bound on every id returned after running `ops` from state `v`:
ids all come from the monotone counter, so none is below the starting
counter value. -/
theorem run_ops_ids_ge (ops : List SceneOp) :
    ∀ (v : Viewer) (i : Nat), i ∈ (run_ops v ops).2 → v.next_data_id ≤ i := by
  induction ops with
  | nil => intro v i hi; simp [run_ops] at hi
  | cons op rest ih =>
      intro v i hi
      cases op with
      | append p t c =>
          simp only [run_ops, Viewer.append_mesh, List.mem_cons] at hi
          rcases hi with h1 | h2
          · exact le_of_eq h1.symm
          · have h3 : v.next_data_id + 1 ≤ i := ih _ _ h2
            omega
      | remove id =>
          simp only [run_ops] at hi
          exact ih (v.remove_data id) i hi

/-- Claim C4: across any sequence of `append_mesh` and `remove_data` calls,
the ids returned by `append_mesh` are strictly increasing in call order and
pairwise distinct, so an id is never assigned again — in particular not after
the entry holding it was removed.  The source's `u32` counter is modelled as
ℕ: Rust declares overflow of `next_data_id += 1` a program error (it panics
under overflow checks), so no completed call ever observes a wrapped
counter. -/
theorem c4_ids_strictly_increasing (v : Viewer) (ops : List SceneOp) :
    List.Pairwise (· < ·) (run_ops v ops).2 ∧ (run_ops v ops).2.Nodup := by
  have main : ∀ (ops : List SceneOp) (v : Viewer),
      List.Pairwise (· < ·) (run_ops v ops).2 := by
    intro ops
    induction ops with
    | nil => intro v; simp [run_ops]
    | cons op rest ih =>
        intro v
        cases op with
        | append p t c =>
            simp only [run_ops, Viewer.append_mesh]
            refine List.Pairwise.cons ?_ (ih _)
            intro i hi
            have h3 : v.next_data_id + 1 ≤ i := run_ops_ids_ge rest _ i hi
            omega
        | remove id => simp only [run_ops]; exact ih _
  exact ⟨main ops v, (main ops v).imp fun h => ne_of_lt h⟩

/-- Claim C8: when the graphics context is not yet ready, `Viewer::render`
returns success, records no commands, and leaves the entire viewer state —
entries, dirty flags, camera state and the pending box-refresh flag —
unchanged. -/
theorem c8_context_not_ready (v : Viewer) :
    Viewer.render Option.none v = (v, Except.ok (), []) := rfl

/-- Absent keys: mutating a map entry that does not exist leaves the map
unchanged (`HashMap::get_mut` returning `None`). -/
theorem update_entry_absent (data : List (Nat × ViewData)) (id : Nat)
    (f : ViewData → ViewData) (h : id ∉ data.map Prod.fst) :
    update_entry data id f = data := by
  induction data with
  | nil => rfl
  | cons p rest ih =>
      simp only [List.map_cons, List.mem_cons, not_or] at h
      have h1 : p.1 ≠ id := fun he => h.1 he.symm
      simp only [update_entry, List.map_cons, if_neg h1]
      exact congrArg (List.cons p) (ih h.2)

/-- Claim C9: `set_visible`, `set_edge_width` and `set_edge_color` with an id
absent from the entry map return normally and leave the viewer state entirely
unchanged — a silent no-op with no dirty flag set anywhere. -/
theorem c9_setters_missing_id (v : Viewer) (id : Nat) (b : Bool) (wd : ℝ)
    (c : Vec4) (h : id ∉ v.data.map Prod.fst) :
    v.set_visible id b = v ∧ v.set_edge_width id wd = v ∧
    v.set_edge_color id c = v := by
  refine ⟨?_, ?_, ?_⟩ <;>
    · simp only [Viewer.set_visible, Viewer.set_edge_width, Viewer.set_edge_color,
        update_entry_absent _ _ _ h]

/-- Witness for C9 on the fresh empty viewer and id 0. -/
theorem c9_setters_missing_id_w :
    (0 ∉ Viewer.new.data.map Prod.fst) ∧
    (Viewer.new.set_visible 0 true = Viewer.new ∧
     Viewer.new.set_edge_width 0 1 = Viewer.new ∧
     Viewer.new.set_edge_color 0 ⟨0, 0, 0, 1⟩ = Viewer.new) :=
  ⟨by simp [Viewer.new],
   c9_setters_missing_id Viewer.new 0 true 1 ⟨0, 0, 0, 1⟩ (by simp [Viewer.new])⟩

/-- Claim C10: a render over an empty entry map leaves the camera state —
base-zoom and base-translation in particular — exactly as it was, even when a
box refresh is requested; after the last entry is removed the framing derived
from the removed geometry persists. -/
theorem c10_empty_scene_keeps_framing (core : ViewCore) (ub um : Bool) :
    (core.render [] ub um).core = core := by
  simp [ViewCore.render]

/-- Unit axes give unit quaternions: `from_axis_angle` of an axis whose
squared components sum to 1 has norm 1. -/
theorem norm_from_axis_angle (axis : V3) (θ : ℝ)
    (h : axis.x ^ 2 + axis.y ^ 2 + axis.z ^ 2 = 1) :
    ‖from_axis_angle axis θ‖ = 1 := by
  have hsq : Quaternion.normSq (from_axis_angle axis θ) = 1 := by
    simp only [from_axis_angle, Quaternion.normSq_def']
    calc Real.cos (θ / 2) ^ 2 + (Real.sin (θ / 2) * axis.x) ^ 2 +
          (Real.sin (θ / 2) * axis.y) ^ 2 + (Real.sin (θ / 2) * axis.z) ^ 2
        = Real.cos (θ / 2) ^ 2 +
            Real.sin (θ / 2) ^ 2 * (axis.x ^ 2 + axis.y ^ 2 + axis.z ^ 2) := by ring
      _ = Real.sin (θ / 2) ^ 2 + Real.cos (θ / 2) ^ 2 := by rw [h]; ring
      _ = 1 := Real.sin_sq_add_cos_sq _
  have hmul : ‖from_axis_angle axis θ‖ * ‖from_axis_angle axis θ‖ = 1 := by
    rw [← Quaternion.normSq_eq_norm_mul_self]; exact hsq
  rcases mul_self_eq_one_iff.mp hmul with h1 | h1
  · exact h1
  · have := norm_nonneg (from_axis_angle axis θ)
    rw [h1] at this; linarith

/-- Rotation by angle 0 about the world-right axis is the identity
quaternion. -/
theorem from_axis_angle_X_zero : from_axis_angle AXIS_X 0 = 1 := by
  ext <;> simp [from_axis_angle, AXIS_X]

/-- Claim C2: the trackball function returns
`normalize(R_up(Δx/w · s) · R_right(Δy/h · s) · q)`; a drag of `(w/s, 0)`
pixels from the anchor yields exactly the 1-radian up-axis rotation composed
onto the anchored orientation; and the returned quaternion has unit norm.
The anchor orientation `q` is an orientation, i.e. a unit quaternion. -/
theorem c2_trackball_math (w h speed : ℝ) (q : Quaternion ℝ) (a p : ℝ × ℝ)
    (hw : 0 < w) (hh : 0 < h) (hs : speed ≠ 0) (hq : ‖q‖ = 1) :
    two_axis_valuator_fixed_up w h speed q a p = spec_trackball w h speed q a p ∧
    two_axis_valuator_fixed_up w h speed q a (a.1 + w / speed, a.2) =
      from_axis_angle AXIS_Y 1 * q ∧
    ‖two_axis_valuator_fixed_up w h speed q a p‖ = 1 := by
  have hY : ∀ θ, ‖from_axis_angle AXIS_Y θ‖ = 1 := fun θ =>
    norm_from_axis_angle AXIS_Y θ (by norm_num [AXIS_Y])
  have hX : ∀ θ, ‖from_axis_angle AXIS_X θ‖ = 1 := fun θ =>
    norm_from_axis_angle AXIS_X θ (by norm_num [AXIS_X])
  refine ⟨rfl, ?_, ?_⟩
  · have e1 : ((a.1 + w / speed, a.2) : ℝ × ℝ).1 - a.1 = w / speed := by simp
    have e2 : ((a.1 + w / speed, a.2) : ℝ × ℝ).2 - a.2 = 0 := by simp
    simp only [two_axis_valuator_fixed_up, e1, e2]
    rw [show w / speed / w * speed = 1 by field_simp; ring,
      show (0 : ℝ) / h * speed = 0 by simp, from_axis_angle_X_zero, mul_one]
    have hn : ‖from_axis_angle AXIS_Y 1 * q‖ = 1 := by
      rw [norm_mul, hY, hq, mul_one]
    rw [hn]
    simp
  · simp only [two_axis_valuator_fixed_up]
    have hn : ‖from_axis_angle AXIS_Y ((p.1 - a.1) / w * speed) *
        from_axis_angle AXIS_X ((p.2 - a.2) / h * speed) * q‖ = 1 := by
      rw [norm_mul, norm_mul, hY, hX, hq]; ring
    rw [norm_smul, norm_inv, norm_norm, hn]
    norm_num

/-- Witness for C2 with unit dimensions, unit speed and the identity anchor
orientation. -/
theorem c2_trackball_math_w :
    (0 : ℝ) < 1 ∧ ((1 : ℝ) ≠ 0) ∧ ‖(1 : Quaternion ℝ)‖ = 1 ∧
    ‖two_axis_valuator_fixed_up 1 1 1 1 (0, 0) (0, 0)‖ = 1 :=
  ⟨by norm_num, by norm_num, norm_one,
   (c2_trackball_math 1 1 1 1 (0, 0) (0, 0) (by norm_num) (by norm_num)
     (by norm_num) norm_one).2.2⟩

/-- Synchronizing an entry always leaves its DIRTY_VERTEX flag cleared. -/
theorem syncEntry_dirty_vertex (d : ViewData) : (syncEntry d).dirty.vertex = false := by
  unfold syncEntry
  by_cases h1 : d.hasPipeline = true <;> by_cases h2 : d.dirty.vertex = true <;>
    by_cases h3 : d.dirty.material = true <;> simp [h1, h2, h3]

/-- After a render no entry is both visible and vertex-dirty. -/
theorem render_entries_clean (core : ViewCore) (data : List (Nat × ViewData))
    (ub um : Bool) :
    ∀ p ∈ (core.render data ub um).entries,
      (p.2.visible && p.2.dirty.vertex) = false := by
  intro p hp
  simp only [ViewCore.render, List.mem_map] at hp
  obtain ⟨q, hq, rfl⟩ := hp
  by_cases hv : q.2.visible = true
  · simp [hv, syncEntry_dirty_vertex]
  · simp [hv]

/-- Counterexample to claim C5 as stated: with the context ready, a render
neither uploads nor clears the DIRTY_VERTEX flag of a *hidden* entry — the
per-entry sync loop `continue`s past invisible entries — so "every entry
whose DIRTY_VERTEX flag is set has its vertex buffer uploaded and that flag
cleared" fails on the scene whose only entry is hidden and dirty. -/
theorem c5_counterexample :
    (ViewCore.new.render [(0, hiddenDirty)] true true).uploaded_vertex_ids = [] ∧
    ((ViewCore.new.render [(0, hiddenDirty)] true true).entries.map
      fun p => p.2.dirty.vertex) = [true] := by
  constructor <;> rfl

/-- Claim C5 amended: during a render with the graphics context ready, every
*visible* entry whose DIRTY_VERTEX flag is set has its vertex buffer uploaded
and the flag cleared (hidden entries are skipped); the uploaded ids are
exactly those of the visible dirty entries; and a second render with no
intervening mutation performs no vertex-buffer upload at all, so for a
visible dirty entry the upload occurs exactly once across the two renders. -/
theorem c5_vertex_upload_once (core : ViewCore) (data : List (Nat × ViewData))
    (ub um : Bool) :
    ((core.render data ub um).entries.all fun p =>
        !p.2.visible || !p.2.dirty.vertex) = true ∧
    (core.render data ub um).uploaded_vertex_ids =
      (data.filter fun p => p.2.visible && p.2.dirty.vertex).map Prod.fst ∧
    ((core.render data ub um).core.render (core.render data ub um).entries
        false true).uploaded_vertex_ids = [] := by
  refine ⟨?_, rfl, ?_⟩
  · rw [List.all_eq_true]
    intro p hp
    have h := render_entries_clean core data ub um p hp
    simp [← Bool.not_and, h]
  · have hnil : ((core.render data ub um).entries.filter
        fun p => p.2.visible && p.2.dirty.vertex) = [] :=
      List.filter_eq_nil_iff.mpr fun p hp => by
        simp [render_entries_clean core data ub um p hp]
    show (((core.render data ub um).entries.filter
        fun p => p.2.visible && p.2.dirty.vertex).map Prod.fst) = []
    rw [hnil]
    rfl

/-- When the map is non-empty and a box refresh is requested or some visible
entry had dirty vertex data, the camera framing is rederived from the union
box of all (post-sync) entries: translation is the negated center and
base-zoom the reciprocal diagonal length. -/
theorem render_box_refresh_eq (core : ViewCore) (data : List (Nat × ViewData))
    (ub um : Bool) (hne : data ≠ [])
    (hreq : ub = true ∨ (data.any fun p => p.2.visible && p.2.dirty.vertex) = true) :
    (core.render data ub um).core =
      { core with
        camera_base_translation :=
          V3.neg ⟨((sceneBox (core.render data ub um).entries).min.x +
                   (sceneBox (core.render data ub um).entries).max.x) / 2,
                  ((sceneBox (core.render data ub um).entries).min.y +
                   (sceneBox (core.render data ub um).entries).max.y) / 2,
                  ((sceneBox (core.render data ub um).entries).min.z +
                   (sceneBox (core.render data ub um).entries).max.z) / 2⟩
        camera_base_zoom :=
          1 / (sceneBox (core.render data ub um).entries).max_len } := by
  obtain ⟨q, rest, rfl⟩ : ∃ q rest, data = q :: rest := by
    cases data with
    | nil => exact absurd rfl hne
    | cons q rest => exact ⟨q, rest, rfl⟩
  simp only [ViewCore.render]
  split
  · rfl
  · rename_i hfalse
    rcases hreq with h | h <;> simp [h] at hfalse

/-- Claim C6 amended: whenever a render requests a box refresh or observes
that some (visible) vertex data changed this frame, and the entry map is
non-empty, the aggregate box is recomputed as the union over all entries,
visible and hidden alike, base-translation is set to the negation of the
box's center and base-zoom to 1 divided by the length of the box's diagonal
(not the maximum extent along a single axis). -/
theorem c6_box_refresh (core : ViewCore) (data : List (Nat × ViewData))
    (ub um : Bool) (hne : data ≠ [])
    (hreq : ub = true ∨ (data.any fun p => p.2.visible && p.2.dirty.vertex) = true) :
    (core.render data ub um).core.camera_base_translation =
      V3.neg ⟨((sceneBox (core.render data ub um).entries).min.x +
               (sceneBox (core.render data ub um).entries).max.x) / 2,
              ((sceneBox (core.render data ub um).entries).min.y +
               (sceneBox (core.render data ub um).entries).max.y) / 2,
              ((sceneBox (core.render data ub um).entries).min.z +
               (sceneBox (core.render data ub um).entries).max.z) / 2⟩ ∧
    (core.render data ub um).core.camera_base_zoom =
      1 / (sceneBox (core.render data ub um).entries).max_len := by
  rw [render_box_refresh_eq core data ub um hne hreq]
  exact ⟨rfl, rfl⟩

/-- Witness for the amended C6 on a one-entry scene with a forced refresh. -/
theorem c6_box_refresh_w :
    (([((0 : Nat), unitBoxData)] : List (Nat × ViewData)) ≠ []) ∧
    (ViewCore.new.render [(0, unitBoxData)] true true).core.camera_base_zoom =
      1 / (sceneBox (ViewCore.new.render [(0, unitBoxData)] true true).entries).max_len :=
  ⟨by simp,
   (c6_box_refresh ViewCore.new [(0, unitBoxData)] true true (by simp)
     (Or.inl rfl)).2⟩

/-- Counterexample to claim C6 as stated: on the unit-cube box the code sets
base-zoom to 1/√3 (the reciprocal of the box diagonal length), which differs
from 1 divided by the box's maximum extent along any axis (= 1/1 = 1). -/
theorem c6_counterexample :
    ¬ ((ViewCore.new.render [(0, unitBoxData)] true true).core.camera_base_zoom =
        1 / specMaxExtentAnyAxis
            (sceneBox (ViewCore.new.render [(0, unitBoxData)] true true).entries)) := by
  have hbox : sceneBox ((ViewCore.new.render [(0, unitBoxData)] true true).entries) =
      ⟨⟨-0.5, -0.5, -0.5⟩, ⟨0.5, 0.5, 0.5⟩⟩ := by
    show BBox.merge_box BBox.default unitBoxData.bbox = _
    norm_num [BBox.merge_box, BBox.merge, BBox.default, unitBoxData, FLOAT_MAX,
      min_def, max_def, BBox.mk.injEq, V3.mk.injEq]
  have hzoom : (ViewCore.new.render [(0, unitBoxData)] true true).core.camera_base_zoom =
      1 / Real.sqrt 3 := by
    have h0 : (ViewCore.new.render [(0, unitBoxData)] true true).core.camera_base_zoom =
        1 / (sceneBox ((ViewCore.new.render [(0, unitBoxData)] true true).entries)).max_len :=
      rfl
    rw [h0, hbox]
    norm_num [BBox.max_len]
  rw [hzoom, hbox]
  have h3 : (1 : ℝ) < Real.sqrt 3 := by
    rw [show (1 : ℝ) = Real.sqrt 1 from Real.sqrt_one.symm]
    exact Real.sqrt_lt_sqrt (by norm_num) (by norm_num)
  have hne0 : Real.sqrt 3 ≠ 0 := by positivity
  intro he
  rw [show specMaxExtentAnyAxis ⟨⟨-0.5, -0.5, -0.5⟩, ⟨0.5, 0.5, 0.5⟩⟩ = 1 by
    norm_num [specMaxExtentAnyAxis, max_def]] at he
  field_simp at he
  linarith

/-- Evaluation of the unit cube's bounding box from its generated flat-shaded
vertices. -/
theorem cube_box_eval :
    box_from_points (mesh_vertices cube_points cube_triangles) =
      ⟨⟨-0.5, -0.5, -0.5⟩, ⟨0.5, 0.5, 0.5⟩⟩ := by
  norm_num [box_from_points, mesh_vertices, tri_vertices, vpoint, cube_points,
    cube_triangles, List.foldl, BBox.merge, BBox.default, FLOAT_MAX, min_def,
    max_def, BBox.mk.injEq, V3.mk.injEq]

/-- Claim C7: for a scene holding exactly one unit-cube mesh (12 triangles,
corners at ±0.5), a render that uploads its vertices computes the mesh box
[−0.5,−0.5,−0.5]–[0.5,0.5,0.5] and a base-zoom of 1/√3, which is within
0.001 of 0.577 ≈ 1/1.732. -/
theorem c7_unit_cube (ub um : Bool) :
    ((ViewCore.new.render [(0, cube_data)] ub um).entries.map fun p => p.2.bbox) =
      [⟨⟨-0.5, -0.5, -0.5⟩, ⟨0.5, 0.5, 0.5⟩⟩] ∧
    (ViewCore.new.render [(0, cube_data)] ub um).core.camera_base_zoom =
      1 / Real.sqrt 3 ∧
    |(ViewCore.new.render [(0, cube_data)] ub um).core.camera_base_zoom - 0.577|
      < 0.001 := by
  have hmap : ((ViewCore.new.render [(0, cube_data)] ub um).entries.map
      fun p => p.2.bbox) = [box_from_points (mesh_vertices cube_points cube_triangles)] :=
    rfl
  have hscene : sceneBox ((ViewCore.new.render [(0, cube_data)] ub um).entries) =
      ⟨⟨-0.5, -0.5, -0.5⟩, ⟨0.5, 0.5, 0.5⟩⟩ := by
    have h0 : sceneBox ((ViewCore.new.render [(0, cube_data)] ub um).entries) =
        BBox.merge_box BBox.default
          (box_from_points (mesh_vertices cube_points cube_triangles)) := rfl
    rw [h0, cube_box_eval]
    norm_num [BBox.merge_box, BBox.merge, BBox.default, FLOAT_MAX, min_def,
      max_def, BBox.mk.injEq, V3.mk.injEq]
  have hzoom : (ViewCore.new.render [(0, cube_data)] ub um).core.camera_base_zoom =
      1 / Real.sqrt 3 := by
    rw [render_box_refresh_eq ViewCore.new [(0, cube_data)] ub um (by simp)
      (Or.inr (by norm_num [cube_data, ViewData.new, DirtyFlags.dirtyAll]))]
    show 1 / (sceneBox ((ViewCore.new.render [(0, cube_data)] ub um).entries)).max_len
        = 1 / Real.sqrt 3
    rw [hscene]
    norm_num [BBox.max_len]
  refine ⟨by rw [hmap, cube_box_eval], hzoom, ?_⟩
  rw [hzoom]
  have hs0 : (0 : ℝ) < Real.sqrt 3 := Real.sqrt_pos.mpr (by norm_num)
  have hlo : (1.7305 : ℝ) < Real.sqrt 3 := by
    rw [show (1.7305 : ℝ) = Real.sqrt (1.7305 ^ 2) from
      (Real.sqrt_sq (by norm_num)).symm]
    exact Real.sqrt_lt_sqrt (by positivity) (by norm_num)
  have hhi : Real.sqrt 3 < 1.7361 := by
    rw [show (1.7361 : ℝ) = Real.sqrt (1.7361 ^ 2) from
      (Real.sqrt_sq (by norm_num)).symm]
    exact Real.sqrt_lt_sqrt (by norm_num) (by norm_num)
  have h1 : (0.576 : ℝ) < 1 / Real.sqrt 3 := by
    rw [lt_div_iff₀ hs0]; linarith
  have h2 : 1 / Real.sqrt 3 < (0.578 : ℝ) := by
    rw [div_lt_iff₀ hs0]; linarith
  rw [abs_lt]
  constructor <;> linarith

end

